import Mathlib

/-!
Verification development for the OSM address-generator repository.

The definitions below are shallow embeddings of the Python sources:
`src/worker.py` (MemoryOptimizedWorker / MemoryOptimizedAddressExtractor),
`src/worker_enhanced.py` (EnhancedAddressWorker / AddressExtractor),
`src/worker_huge_countries.py` (HugeCountryWorker) and
`src/looks_like_address.py`.  Python dicts over string keys are modelled as
association lists (first binding wins, matching single-assignment use in the
source); MongoDB documents are modelled as a `JobRecord` structure and the
`country_status` collection as an association list from country code to
record; wall-clock time (`datetime.utcnow()`) is passed as an explicit `Nat`
argument; latitude/longitude floats are modelled as rationals.  Character
classes from the Python regexes are modelled for the ASCII range (the
concrete strings examined by the theorems are all ASCII).
-/

namespace AddrGen

/-- Association list keyed by strings: the model of a Python `dict` built by
single assignments, and of a Mongo collection keyed by a unique index. -/
abbrev SMap := List (String × String)

/-- First binding for a key, the model of `d[k]` / `find_one`. -/
def lookupKey {α : Type} : List (String × α) → String → Option α
  | [], _ => none
  | (k, v) :: rest, key => if k = key then some v else lookupKey rest key

/-- Model of the Python `k in d` membership test. -/
def hasKey {α : Type} (m : List (String × α)) (key : String) : Bool :=
  (lookupKey m key).isSome

/-- Strip the `addr:` namespace from a tag key, the model of
`key.replace('addr:', '')` as used in `extract_address_info` (the keys fed to
it carry the namespace at most once, as a leading token). -/
def stripAddrKey (k : String) : String :=
  if k.toList.take 5 = "addr:".toList then ⟨k.toList.drop 5⟩ else k

/-- Python `str.upper` for the ASCII range, on the character list of a
string. -/
def pyUpper (s : String) : String := ⟨s.toList.map Char.toUpper⟩

/-- `MemoryOptimizedAddressExtractor.extract_address_info`
(src/worker.py lines 168-186): essential components first, then optional
ones, inserting `tags[key]` under the key with `addr:` stripped. -/
def extract_address_info (tags : SMap) : SMap :=
  (["addr:housenumber", "addr:street", "addr:city", "addr:country"] ++
   ["addr:suburb", "addr:postcode", "building", "name"]).foldl
    (fun acc k =>
      match lookupKey tags k with
      | some v => acc ++ [(stripAddrKey k, v)]
      | none => acc) []

/-- The `country_names` table of `MemoryOptimizedAddressExtractor`
(src/worker.py lines 65-110). -/
def country_names : SMap :=
  [("AD", "Andorra"), ("AE", "United Arab Emirates"), ("AF", "Afghanistan"),
   ("AL", "Albania"), ("AM", "Armenia"), ("AO", "Angola"), ("AQ", "Antarctica"),
   ("AR", "Argentina"), ("AT", "Austria"), ("AU", "Australia"), ("AZ", "Azerbaijan"),
   ("BA", "Bosnia and Herzegovina"), ("BD", "Bangladesh"), ("BE", "Belgium"),
   ("BF", "Burkina Faso"), ("BG", "Bulgaria"), ("BH", "Bahrain"), ("BI", "Burundi"),
   ("BJ", "Benin"), ("BN", "Brunei"), ("BO", "Bolivia"), ("BR", "Brazil"),
   ("BS", "Bahamas"), ("BT", "Bhutan"), ("BW", "Botswana"), ("BY", "Belarus"),
   ("BZ", "Belize"), ("CA", "Canada"), ("CD", "Democratic Republic of the Congo"),
   ("CF", "Central African Republic"), ("CG", "Republic of the Congo"),
   ("CH", "Switzerland"), ("CI", "Ivory Coast"), ("CL", "Chile"), ("CM", "Cameroon"),
   ("CN", "China"), ("CO", "Colombia"), ("CR", "Costa Rica"), ("CU", "Cuba"),
   ("CV", "Cabo Verde"), ("CY", "Cyprus"), ("CZ", "Czechia"), ("DE", "Germany"),
   ("DJ", "Djibouti"), ("DK", "Denmark"), ("DO", "Dominican Republic"),
   ("DZ", "Algeria"), ("EC", "Ecuador"), ("EE", "Estonia"), ("EG", "Egypt"),
   ("ER", "Eritrea"), ("ES", "Spain"), ("ET", "Ethiopia"), ("FI", "Finland"),
   ("FJ", "Fiji"), ("FR", "France"), ("GA", "Gabon"), ("GB", "United Kingdom"),
   ("GE", "Georgia"), ("GH", "Ghana"), ("GN", "Guinea"), ("GQ", "Equatorial Guinea"),
   ("GR", "Greece"), ("GT", "Guatemala"), ("GW", "Guinea-Bissau"), ("GY", "Guyana"),
   ("HN", "Honduras"), ("HR", "Croatia"), ("HT", "Haiti"), ("HU", "Hungary"),
   ("ID", "Indonesia"), ("IE", "Ireland"), ("IL", "Israel"), ("IN", "India"),
   ("IQ", "Iraq"), ("IR", "Iran"), ("IS", "Iceland"), ("IT", "Italy"),
   ("JM", "Jamaica"), ("JO", "Jordan"), ("JP", "Japan"), ("KE", "Kenya"),
   ("KG", "Kyrgyzstan"), ("KH", "Cambodia"), ("KP", "North Korea"),
   ("KR", "South Korea"), ("KW", "Kuwait"), ("KZ", "Kazakhstan"), ("LA", "Laos"),
   ("LB", "Lebanon"), ("LI", "Liechtenstein"), ("LK", "Sri Lanka"), ("LR", "Liberia"),
   ("LS", "Lesotho"), ("LT", "Lithuania"), ("LU", "Luxembourg"), ("LV", "Latvia"),
   ("LY", "Libya"), ("MA", "Morocco"), ("MC", "Monaco"), ("MD", "Moldova"),
   ("ME", "Montenegro"), ("MG", "Madagascar"), ("MK", "Macedonia"), ("ML", "Mali"),
   ("MM", "Myanmar"), ("MN", "Mongolia"), ("MR", "Mauritania"), ("MT", "Malta"),
   ("MU", "Mauritius"), ("MW", "Malawi"), ("MX", "Mexico"), ("MY", "Malaysia"),
   ("MZ", "Mozambique"), ("NA", "Namibia"), ("NE", "Niger"), ("NG", "Nigeria"),
   ("NI", "Nicaragua"), ("NL", "Netherlands"), ("NO", "Norway"), ("NP", "Nepal"),
   ("NZ", "New Zealand"), ("OM", "Oman"), ("PA", "Panama"), ("PE", "Peru"),
   ("PG", "Papua New Guinea"), ("PH", "Philippines"), ("PK", "Pakistan"),
   ("PL", "Poland"), ("PT", "Portugal"), ("PY", "Paraguay"), ("QA", "Qatar"),
   ("RO", "Romania"), ("RS", "Serbia"), ("RU", "Russia"), ("RW", "Rwanda"),
   ("SA", "Saudi Arabia"), ("SD", "Sudan"), ("SE", "Sweden"), ("SG", "Singapore"),
   ("SI", "Slovenia"), ("SK", "Slovakia"), ("SL", "Sierra Leone"), ("SN", "Senegal"),
   ("SO", "Somalia"), ("SR", "Suriname"), ("SS", "South Sudan"), ("SY", "Syria"),
   ("TD", "Chad"), ("TG", "Togo"), ("TH", "Thailand"), ("TJ", "Tajikistan"),
   ("TN", "Tunisia"), ("TR", "Turkey"), ("TT", "Trinidad and Tobago"),
   ("TZ", "Tanzania"), ("UA", "Ukraine"), ("UG", "Uganda"), ("US", "United States"),
   ("UY", "Uruguay"), ("UZ", "Uzbekistan"), ("VE", "Venezuela"), ("VN", "Vietnam"),
   ("YE", "Yemen"), ("ZA", "South Africa"), ("ZM", "Zambia"), ("ZW", "Zimbabwe")]

/-- `MemoryOptimizedAddressExtractor.get_country_name`
(src/worker.py lines 136-138): table lookup on the upper-cased code with the
extractor's own `country_name` as the fallback. -/
def get_country_name (selfCountryName code : String) : String :=
  (lookupKey country_names (pyUpper code)).getD selfCountryName

/-- The model of Python `', '.join(parts)`. -/
def joinComma : List String → String
  | [] => ""
  | [s] => s
  | s :: t :: rest => s ++ ", " ++ joinComma (t :: rest)

/-- The component list assembled by
`MemoryOptimizedAddressExtractor.format_full_address` before the country is
appended (src/worker.py lines 190-212): building name, house-number+street
(street alone if the house number is absent, nothing if the street is
absent), suburb, city, postcode. -/
def address_parts_pre (addr_info : SMap) : List String :=
  (match lookupKey addr_info "name" with
   | some v => [v]
   | none => []) ++
  (match lookupKey addr_info "housenumber", lookupKey addr_info "street" with
   | some hn, some st => [hn ++ " " ++ st]
   | none, some st => [st]
   | _, none => []) ++
  (match lookupKey addr_info "suburb" with
   | some v => [v]
   | none => []) ++
  (match lookupKey addr_info "city" with
   | some v => [v]
   | none => []) ++
  (match lookupKey addr_info "postcode" with
   | some v => [v]
   | none => [])

/-- The full part list: the country name is appended unconditionally last
(src/worker.py lines 214-215). -/
def address_parts (addr_info : SMap) (countryName : String) : List String :=
  address_parts_pre addr_info ++ [countryName]

/-- `MemoryOptimizedAddressExtractor.format_full_address`
(src/worker.py lines 188-217): comma-join of `address_parts`, `None` when the
part list is empty. -/
def format_full_address (addr_info : SMap) (countryName : String) : Option String :=
  let parts := address_parts addr_info countryName
  if parts.isEmpty then none else some (joinComma parts)

/-- Python's `str.strip` on a character list (ASCII whitespace). -/
def stripChars (l : List Char) : List Char :=
  ((l.dropWhile Char.isWhitespace).reverse.dropWhile Char.isWhitespace).reverse

/-- Regex class `\w` of `looks_like_address`, modelled for the ASCII range:
letters, digits and the underscore. -/
def isWordChar (c : Char) : Bool :=
  c.isAlpha || c.isDigit || c = '_'

/-- Python `address.split(',')` on a character list. -/
def splitCommaChars : List Char → List (List Char)
  | [] => [[]]
  | c :: rest =>
    let r := splitCommaChars rest
    if c = ',' then [] :: r
    else
      match r with
      | [] => [[c]]
      | s :: ss => (c :: s) :: ss

/-- Punctuation blacklist of `looks_like_address`
(src/looks_like_address.py line 43); the two curly braces are written by
code point. -/
def specialChars : List Char :=
  ['`', ':', '%', '$', '@', '*', '^', '[', ']',
   Char.ofNat 123, Char.ofNat 125, '_', '«', '»']

/-- `looks_like_address` (src/looks_like_address.py lines 3-56), translated
check by check over the stripped, lower-cased character list `a`:
`address_len` is `a` with non-word characters removed (the second `strip` in
the source is a no-op since `a` is already stripped); `letter_count` counts
word characters that are not digits (the class `[^\W\d]`); then the
no-ASCII-letter test, the distinct-character test, the digit-bearing
comma-section test on the string with hyphens and semicolons removed, the
comma-count test and the punctuation blacklist. -/
def looks_like_address (address : String) : Bool :=
  let a : List Char := (stripChars address.toList).map Char.toLower
  let addressLen := a.filter isWordChar
  if addressLen.length < 30 then false
  else if 300 < addressLen.length then false
  else if (a.filter (fun c => isWordChar c && !c.isDigit)).length < 20 then false
  else if a.all (fun c => !c.isAlpha) then false
  else if a.eraseDups.length < 5 then false
  else
    let afnc := a.filter (fun c => c ≠ '-' && c ≠ ';')
    let sections := (splitCommaChars afnc).map stripChars
    if (sections.filter (fun s => s.any Char.isDigit)).length < 1 then false
    else if (a.filter (fun c => c = ',')).length < 2 then false
    else if specialChars.any (fun c => a.contains c) then false
    else true

/-- Outcome of one `process_address` call, naming the rejecting check.
`rejectedEmpty` and `rejectedShort` are the two disjuncts of the single
source condition `if not full_address or len(full_address) <= 30`. -/
inductive ProcResult where
  | rejectedNoStreet
  | rejectedEmpty
  | rejectedShort
  | rejectedCity
  | rejectedInvalid
  | accepted (street city full : String)
deriving Repr, DecidableEq

/-- The country name `process_address` resolves for a record: the
`addr:country` component if present, else the job's country code, looked up
through `get_country_name` (src/worker.py lines 226-228). -/
def resolved_country_name (selfCode selfName : String) (addr_info : SMap) : String :=
  get_country_name selfName ((lookupKey addr_info "country").getD selfCode)

/-- `MemoryOptimizedAddressExtractor.process_address`
(src/worker.py lines 219-249), decision part: the street-presence check (the
housenumber disjunct is commented out in the source), country resolution,
formatting, the empty-or-short check, the unknown-city check and the
`looks_like_address` check, ending in the accepted record
`{street_name, city, fulladdress}`. -/
def process_address (selfCode selfName : String) (addr_info : SMap) : ProcResult :=
  if !hasKey addr_info "street" then .rejectedNoStreet
  else
    match format_full_address addr_info (resolved_country_name selfCode selfName addr_info) with
    | none => .rejectedEmpty
    | some full =>
      if full = "" then .rejectedEmpty
      else if full.length ≤ 30 then .rejectedShort
      else
        let city := (lookupKey addr_info "city").getD "Unknown"
        if city = "Unknown" then .rejectedCity
        else if !looks_like_address full then .rejectedInvalid
        else .accepted ((lookupKey addr_info "street").getD "Unknown") city full

/-- One document of the `country_status` Mongo collection (the JobStore).
Fields not yet written are `none`; `completion_type`, `addresses_saved` and
`limit_reached` are written only by `worker_huge_countries.py`. -/
structure JobRecord where
  worker_id : Option Nat
  status : String
  started_at : Option Nat
  completed_at : Option Nat
  skipped_at : Option Nat
  reason : Option String
  completion_type : Option String
  addresses_saved : Option Nat
  limit_reached : Option Bool
deriving Repr, DecidableEq

/-- A freshly inserted claim document, as written by the `$setOnInsert`
upsert of `claim_country` (src/worker.py lines 365-376). -/
def freshClaim (workerId now : Nat) : JobRecord :=
  { worker_id := some workerId, status := "processing", started_at := some now,
    completed_at := none, skipped_at := none, reason := none,
    completion_type := none, addresses_saved := none, limit_reached := none }

/-- The `country_status` collection: country code to document, the code being
a unique index. -/
abbrev Store := List (String × JobRecord)

/-- Mongo `update_one` with a `$set` document: rewrite the matching record,
no-op when no record matches. -/
def updateRecord (s : Store) (code : String) (f : JobRecord → JobRecord) : Store :=
  match s with
  | [] => []
  | (k, r) :: rest =>
    if k = code then (k, f r) :: rest else (k, r) :: updateRecord rest code f

/-- `MemoryOptimizedWorker.mark_complete` (src/worker.py lines 474-479):
`$set {status: "completed", completed_at: now}`. -/
def mark_complete (code : String) (now : Nat) (s : Store) : Store :=
  updateRecord s code fun r => { r with status := "completed", completed_at := some now }

/-- `MemoryOptimizedWorker.mark_skipped` (src/worker.py lines 481-486):
`$set {status: "skipped", reason: reason, skipped_at: now}`. -/
def mark_skipped (code : String) (reason : String) (now : Nat) (s : Store) : Store :=
  updateRecord s code fun r =>
    { r with status := "skipped", reason := some reason, skipped_at := some now }

/-- `HugeCountryWorker.mark_complete_with_limit`
(src/worker_huge_countries.py lines 423-435). -/
def mark_complete_with_limit (code : String) (addressesSaved : Nat) (now : Nat)
    (s : Store) : Store :=
  updateRecord s code fun r =>
    { r with status := "completed", completed_at := some now,
             completion_type := some "limit_reached",
             addresses_saved := some addressesSaved, limit_reached := some true }

/-- `MemoryOptimizedWorker.release_country` (src/worker.py lines 488-490):
`delete_one` on the country code. -/
def release_country (code : String) : Store → Store
  | [] => []
  | (k, r) :: rest =>
    if k = code then rest else (k, r) :: release_country code rest

/-- `MemoryOptimizedWorker.claim_country` (src/worker.py lines 358-395) over
the candidate key list: per key, the conditional upsert inserts a fresh
`processing` document and claims the key when no document existed; otherwise
the existing document is read back with `find_one` and a `"retry"` status
claims the key with no further write (the source performs no update on this
branch), while any other status falls through to the next key.  Returns the
claimed key, if any, together with the resulting store. -/
def claim_country (workerId now : Nat) : List String → Store → Option String × Store
  | [], s => (none, s)
  | code :: rest, s =>
    match lookupKey s code with
    | none => (some code, s ++ [(code, freshClaim workerId now)])
    | some existing =>
      if existing.status = "retry" then (some code, s)
      else claim_country workerId now rest s

/-- The terminal marking `MemoryOptimizedWorker.process_country` performs
after a successful `apply_file` (src/worker.py lines 539-560): the
`limit_reached` flag only selects the log message, and both branches fall
through to the same `mark_complete`. -/
def finish_country (limitReached : Bool) (code : String) (now : Nat) (s : Store) : Store :=
  mark_complete code now s

/-- A node reference of a way: validity flag of its location and its
coordinates, as rationals. -/
structure OsmNode where
  valid : Bool
  lat : ℚ
  lon : ℚ
deriving Repr, DecidableEq

/-- The accumulation loop of `calculate_bbox` (src/worker.py lines 145-151):
collect the coordinates of location-valid nodes, breaking once the
accumulator exceeds 100 entries (so at most 101 are kept). -/
def collectValidCoords : List OsmNode → List (ℚ × ℚ) → List (ℚ × ℚ)
  | [], acc => acc
  | n :: rest, acc =>
    if n.valid then
      let acc' := acc ++ [(n.lat, n.lon)]
      if 100 < acc'.length then acc' else collectValidCoords rest acc'
    else collectValidCoords rest acc

/-- `max` of a list as computed by Python `max` on a nonempty list (0 as a
formal value on the empty list, which the callers rule out). -/
def listMax : List ℚ → ℚ
  | [] => 0
  | x :: xs => xs.foldl max x

/-- `min` of a list as computed by Python `min` on a nonempty list. -/
def listMin : List ℚ → ℚ
  | [] => 0
  | x :: xs => xs.foldl min x

/-- `MemoryOptimizedAddressExtractor.calculate_bbox`
(src/worker.py lines 140-166): 0 for fewer than two nodes or fewer than two
valid coordinates; otherwise the larger of the two side lengths
`(max lat - min lat) * 111000` and `(max lon - min lon) * 111000 * 0.7`,
computed over the capped valid-coordinate list. -/
def calculate_bbox (nodes : List OsmNode) : ℚ :=
  if nodes.length < 2 then 0
  else
    let vc := collectValidCoords nodes []
    if vc.length < 2 then 0
    else
      let latDiff := listMax (vc.map Prod.fst) - listMin (vc.map Prod.fst)
      let lonDiff := listMax (vc.map Prod.snd) - listMin (vc.map Prod.snd)
      max (latDiff * 111000) (lonDiff * 111000 * (7 / 10))

/-- Modelled from the spec's words, for comparison with `calculate_bbox`
(claim C5): the mid-latitude-adjusted product
`area = |Δlat|·111000 · |Δlon|·111000·cos(midLat)` over the capped point
set; the cosine of the mid latitude is supplied as the value `cosMid`. -/
def specBboxArea (cosMid : ℚ) (nodes : List OsmNode) : ℚ :=
  let vc := collectValidCoords nodes []
  let latDiff := |listMax (vc.map Prod.fst) - listMin (vc.map Prod.fst)|
  let lonDiff := |listMax (vc.map Prod.snd) - listMin (vc.map Prod.snd)|
  (latDiff * 111000) * (lonDiff * 111000 * cosMid)

/-- Outcome of one `way` callback. -/
inductive WayResult where
  | earlyReturn
  | rejectedNoBuilding
  | rejectedNoStreet
  | rejectedBbox
  | processed (r : ProcResult)
deriving Repr, DecidableEq

/-- The per-record decision of `MemoryOptimizedAddressExtractor.way`
(src/worker.py lines 301-336): early return under shutdown or a previously
reached limit, then the `building` tag-presence check, then the
`addr:street` check (the two-sided housenumber-or-street check is commented
out in this source file), then the bounding-box ceiling, then tag extraction
and `process_address`.  The periodic memory check and progress logging do
not affect the decision for a single record and are omitted. -/
def way_step (shutdownRequested limitReached : Bool) (selfCode selfName : String)
    (maxBbox : ℚ) (tags : SMap) (nodes : List OsmNode) : WayResult :=
  if shutdownRequested || limitReached then .earlyReturn
  else if !hasKey tags "building" then .rejectedNoBuilding
  else if !hasKey tags "addr:street" then .rejectedNoStreet
  else if maxBbox < calculate_bbox nodes then .rejectedBbox
  else .processed (process_address selfCode selfName (extract_address_info tags))

/-- The tag-presence filter of `AddressExtractor.way` in the enhanced worker
(src/worker_enhanced.py lines 298-304): a building tag, plus at least one of
the housenumber and street tags. -/
def enhanced_way_tag_filter (tags : SMap) : Bool :=
  hasKey tags "building" &&
    (hasKey tags "addr:housenumber" || hasKey tags "addr:street")

/-- An accepted address candidate `{street_name, city, fulladdress}`. -/
structure AddressRecord where
  street_name : String
  city : String
  fulladdress : String
deriving Repr, DecidableEq

/-- The in-memory extraction state of `MemoryOptimizedAddressExtractor`
relevant to batching; `saved_records` is the sequence of records handed to
`save_addresses_batch` (the RecordStore sink), in order. -/
structure PipeState where
  addresses_batch : List AddressRecord
  total_saved : Nat
  found : Nat
  limit_reached : Bool
  saved_records : List AddressRecord
deriving Repr, DecidableEq

/-- The initial extraction state. -/
def initPipe : PipeState :=
  { addresses_batch := [], total_saved := 0, found := 0,
    limit_reached := false, saved_records := [] }

/-- Flush the in-memory batch to the RecordStore sink, as in
`process_address` (src/worker.py lines 255-258). -/
def saveBatch (st : PipeState) : PipeState :=
  { st with saved_records := st.saved_records ++ st.addresses_batch,
            total_saved := st.total_saved + st.addresses_batch.length,
            addresses_batch := [] }

/-- The acceptance tail of `process_address` (src/worker.py lines 244-271):
append the accepted record, bump `found`, flush when the batch reaches
`BATCH_SIZE = 50`, and set `limit_reached` when the running total reaches
`MAX_ADDRESSES_PER_COUNTRY = 300000` after a flush. -/
def acceptAddress (rec : AddressRecord) (st : PipeState) : PipeState :=
  let st' := { st with addresses_batch := st.addresses_batch ++ [rec],
                       found := st.found + 1 }
  if 50 ≤ st'.addresses_batch.length then
    let st'' := saveBatch st'
    if 300000 ≤ st''.total_saved then { st'' with limit_reached := true } else st''
  else st'

/-- The memory-pressure stop inside `way` (src/worker.py lines 308-312):
when `check_memory_usage` fails, `limit_reached` is set and the callback
returns, with no flush of the in-memory batch. -/
def memoryStop (st : PipeState) : PipeState :=
  { st with limit_reached := true }

/-- The end-of-stream flush of `MemoryOptimizedWorker.process_country`
(src/worker.py lines 527-537): the remaining batch is saved, truncated to
the remaining capacity below `MAX_ADDRESSES_PER_COUNTRY = 300000`, and only
when `limit_reached` is not set. -/
def finalFlush (st : PipeState) : PipeState :=
  if !st.addresses_batch.isEmpty && !st.limit_reached then
    let remainingCapacity := 300000 - st.total_saved
    if 0 < remainingCapacity then
      let toSave := st.addresses_batch.take remainingCapacity
      { st with saved_records := st.saved_records ++ toSave,
                total_saved := st.total_saved + toSave.length }
    else st
  else st

/-- The full address string `process_address` computes for a record (the
closed form of `format_full_address` at the resolved country name, which is
always `some`). -/
def fullOf (selfCode selfName : String) (info : SMap) : String :=
  joinComma (address_parts info (resolved_country_name selfCode selfName info))

/-- The first-101-valid-points coordinate list over which `calculate_bbox`
effectively operates (closed form of its accumulation loop). -/
def cappedCoords (nodes : List OsmNode) : List (ℚ × ℚ) :=
  ((nodes.filter (fun n => n.valid)).map (fun n => (n.lat, n.lon))).take 101

/-- The tag set of spec Scenario A. -/
def scenarioATags : SMap :=
  [("building", "house"), ("addr:street", "Main St"), ("addr:housenumber", "12"),
   ("addr:city", "Springfield"), ("addr:country", "US")]

/-- The tag set of spec Scenario B: Scenario A with `addr:city` absent. -/
def scenarioBTags : SMap :=
  [("building", "house"), ("addr:street", "Main St"), ("addr:housenumber", "12"),
   ("addr:country", "US")]

/-- A `country_status` document left in `retry` status by an operator, last
touched by worker 3. -/
def retryRec : JobRecord :=
  { worker_id := some 3, status := "retry", started_at := some 5,
    completed_at := none, skipped_at := none, reason := none,
    completion_type := none, addresses_saved := none, limit_reached := none }

/-- A completed `country_status` document. -/
def completedRec : JobRecord :=
  { worker_id := some 2, status := "completed", started_at := some 1,
    completed_at := some 4, skipped_at := none, reason := none,
    completion_type := none, addresses_saved := none, limit_reached := none }

/-- A `country_status` document currently being processed by worker 1. -/
def processingRec : JobRecord :=
  { worker_id := some 1, status := "processing", started_at := some 0,
    completed_at := none, skipped_at := none, reason := none,
    completion_type := none, addresses_saved := none, limit_reached := none }

/-- A job store whose only key `AD` is in `retry` status. -/
def retryStore : Store := [("AD", retryRec)]

/-- A job store where `US` is completed and `AD` is in `retry` status. -/
def claimStore2 : Store := [("US", completedRec), ("AD", retryRec)]

/-- Tags carrying a building and a house number but no street. -/
def hnOnlyTags : SMap := [("building", "house"), ("addr:housenumber", "12")]

/-- Two valid points straddling the equator: latitude span `1/555` degree
(200 m at 111000 m per degree), longitude span `1/222000` degree (0.5 m
before the longitude factor).  The mid latitude is 0, whose cosine is
exactly 1. -/
def cexNodes : List OsmNode :=
  [⟨true, -1/1110, 0⟩, ⟨true, 1/1110, 1/222000⟩]

/-- Two valid points about 1 m apart. -/
def wNodes : List OsmNode := [⟨true, 0, 0⟩, ⟨true, 1/111000, 1/111000⟩]

/-- A building-with-street tag set. -/
def wTags : SMap := [("building", "house"), ("addr:street", "Main St")]

/-- Three distinct accepted address candidates. -/
def addrA : AddressRecord := ⟨"s1", "c1", "f1"⟩

/-- Second accepted candidate. -/
def addrB : AddressRecord := ⟨"s2", "c2", "f2"⟩

/-- Third accepted candidate. -/
def addrC : AddressRecord := ⟨"s3", "c3", "f3"⟩

/-- A job run in which three candidates are accepted into the batch, the
memory check then fails mid-stream, and the stream ends. -/
def memoryStopRun : PipeState :=
  finalFlush (memoryStop (acceptAddress addrC (acceptAddress addrB (acceptAddress addrA initPipe))))

/-- The same three acceptances with no memory stop, to the end of the
stream. -/
def fullStreamRun : PipeState :=
  finalFlush (acceptAddress addrC (acceptAddress addrB (acceptAddress addrA initPipe)))

/-- An address-component mapping with a long street and no city. -/
def longStreetInfo : SMap := [("street", "Extremely Long Boulevard Name")]

/-! ### Helper lemmas -/

/-- Looking a key up after a single-record update applies the update to the
looked-up record. -/
theorem lookupKey_updateRecord (s : Store) (code : String) (f : JobRecord → JobRecord) :
    lookupKey (updateRecord s code f) code = (lookupKey s code).map f := by
  induction s with
  | nil => rfl
  | cons p rest ih =>
    obtain ⟨k, r⟩ := p
    by_cases h : k = code
    · simp [updateRecord, lookupKey, h]
    · simp [updateRecord, lookupKey, h, ih]

/-- Two single-record updates at the same key compose. -/
theorem updateRecord_updateRecord (s : Store) (code : String) (f g : JobRecord → JobRecord) :
    updateRecord (updateRecord s code f) code g = updateRecord s code (fun r => g (f r)) := by
  induction s with
  | nil => rfl
  | cons p rest ih =>
    obtain ⟨k, r⟩ := p
    by_cases h : k = code
    · simp [updateRecord, h]
    · simp [updateRecord, h, ih]

/-- A comma-join of at least two parts has length at least two. -/
theorem joinComma_two_le (l : List String) (h : 2 ≤ l.length) : 2 ≤ (joinComma l).length := by
  cases l with
  | nil => simp at h
  | cons a t =>
    cases t with
    | nil => simp at h
    | cons b rest =>
      show 2 ≤ (a ++ ", " ++ joinComma (b :: rest)).length
      have hsep : (", ").length = 2 := rfl
      simp only [String.length_append, hsep]
      omega

/-- A comma-join is at least as long as its last part. -/
theorem joinComma_append_last (l : List String) (s : String) :
    s.length ≤ (joinComma (l ++ [s])).length := by
  induction l with
  | nil => simp [joinComma]
  | cons a t ih =>
    have hsep : (", ").length = 2 := rfl
    cases t with
    | nil =>
      show s.length ≤ (a ++ ", " ++ joinComma [s]).length
      simp only [joinComma, String.length_append, hsep]
      omega
    | cons b rest =>
      show s.length ≤ (a ++ ", " ++ joinComma ((b :: rest) ++ [s])).length
      simp only [String.length_append, hsep]
      omega

/-- A string of positive length is not empty. -/
theorem ne_empty_of_length_pos (s : String) (h : 0 < s.length) : s ≠ "" := by
  intro he
  subst he
  exact absurd h (by decide)

/-- A nonempty string has positive length. -/
theorem length_pos_of_ne_empty (s : String) (h : s ≠ "") : 0 < s.length := by
  cases s with
  | mk l =>
    cases l with
    | nil => exact absurd rfl h
    | cons c cs => simp [String.length]

/-- The part list is never empty: the country name is always appended. -/
theorem address_parts_isEmpty (info : SMap) (cn : String) :
    (address_parts info cn).isEmpty = false := by
  unfold address_parts
  cases hp : address_parts_pre info <;> simp [hp]

/-- `format_full_address` always takes the `some` branch. -/
theorem format_eq_some (info : SMap) (cn : String) :
    format_full_address info cn = some (joinComma (address_parts info cn)) := by
  show (if (address_parts info cn).isEmpty = true then none
        else some (joinComma (address_parts info cn))) = _
  rw [if_neg (by simp [address_parts_isEmpty])]

/-- A street component contributes a part before the country name. -/
theorem one_le_pre_of_street (info : SMap) (h : hasKey info "street" = true) :
    1 ≤ (address_parts_pre info).length := by
  have h' : (lookupKey info "street").isSome = true := h
  obtain ⟨v, hv⟩ := Option.isSome_iff_exists.mp h'
  unfold address_parts_pre
  rcases hhn : lookupKey info "housenumber" with _ | hn <;>
    simp [hv, hhn] <;> omega

/-- With a street component the part list has at least two entries. -/
theorem two_le_parts_of_street (info : SMap) (cn : String)
    (h : hasKey info "street" = true) : 2 ≤ (address_parts info cn).length := by
  unfold address_parts
  have := one_le_pre_of_street info h
  simp only [List.length_append, List.length_cons, List.length_nil]
  omega

/-- With a street component the assembled address is never empty. -/
theorem full_ne_empty_of_street (info : SMap) (cn : String)
    (h : hasKey info "street" = true) : joinComma (address_parts info cn) ≠ "" := by
  apply ne_empty_of_length_pos
  have := joinComma_two_le _ (two_le_parts_of_street info cn h)
  omega

/-- With a nonempty country name the assembled address is never empty. -/
theorem full_ne_empty_of_country (info : SMap) (cn : String) (h : cn ≠ "") :
    joinComma (address_parts info cn) ≠ "" := by
  apply ne_empty_of_length_pos
  have h1 : 0 < cn.length := length_pos_of_ne_empty cn h
  have h2 := joinComma_append_last (address_parts_pre info) cn
  show 0 < (joinComma (address_parts info cn)).length
  unfold address_parts
  omega

/-- With a street component present, `process_address` runs past the street
and empty-address checks, leaving exactly the length, city and validity
decisions. -/
theorem process_address_street_cases (selfCode selfName : String) (info : SMap)
    (hst : hasKey info "street" = true) :
    process_address selfCode selfName info =
      (if (fullOf selfCode selfName info).length ≤ 30 then .rejectedShort
       else if (lookupKey info "city").getD "Unknown" = "Unknown" then .rejectedCity
       else if !looks_like_address (fullOf selfCode selfName info) then .rejectedInvalid
       else .accepted ((lookupKey info "street").getD "Unknown")
              ((lookupKey info "city").getD "Unknown") (fullOf selfCode selfName info)) := by
  have hne : fullOf selfCode selfName info ≠ "" :=
    full_ne_empty_of_street info (resolved_country_name selfCode selfName info) hst
  unfold process_address
  rw [hst]
  rw [format_eq_some]
  show (if fullOf selfCode selfName info = "" then ProcResult.rejectedEmpty else _) = _
  rw [if_neg hne]
  rfl

/-- Closed form of the coordinate-collection loop of `calculate_bbox`: it
keeps the first 101 valid coordinates. -/
theorem collectValid_eq (l : List OsmNode) (acc : List (ℚ × ℚ)) (h : acc.length ≤ 100) :
    collectValidCoords l acc =
      (acc ++ (l.filter (fun n => n.valid)).map (fun n => (n.lat, n.lon))).take 101 := by
  induction l generalizing acc with
  | nil =>
    simp only [collectValidCoords, List.filter_nil, List.map_nil, List.append_nil]
    exact (List.take_of_length_le (by omega)).symm
  | cons n rest ih =>
    by_cases hval : n.valid = true
    · show (if n.valid = true then _ else _) = _
      rw [if_pos hval, List.filter_cons_of_pos (by simp [hval])]
      simp only [List.map_cons]
      by_cases hlen : 100 < (acc ++ [(n.lat, n.lon)]).length
      · rw [if_pos hlen]
        have h101 : (acc ++ [(n.lat, n.lon)]).length = 101 := by
          simp only [List.length_append, List.length_cons, List.length_nil] at hlen ⊢
          omega
        have hassoc : acc ++ (n.lat, n.lon) ::
            (rest.filter (fun n => n.valid)).map (fun n => (n.lat, n.lon)) =
            (acc ++ [(n.lat, n.lon)]) ++
              (rest.filter (fun n => n.valid)).map (fun n => (n.lat, n.lon)) := by
          simp
        rw [hassoc, List.take_append_eq_append_take, h101]
        simp [List.take_of_length_le (le_of_eq h101)]
      · rw [if_neg hlen]
        have hle : (acc ++ [(n.lat, n.lon)]).length ≤ 100 := by omega
        rw [ih _ hle]
        simp
    · show (if n.valid = true then _ else _) = _
      rw [if_neg hval, List.filter_cons_of_neg (by simp [hval])]
      exact ih acc h

/-! ### Claim theorems -/

/-- C1: the at-most-one-owner requirement fails on the retry branch of
`claim_country`: over a store whose key `AD` holds a `retry`-status record,
a claim call by worker 1 and a claim call by worker 2 both return `AD` as a
successful claim, and neither call writes anything (the store is returned
unchanged, its record still in `retry` status with the stale owner), so two
callers observe a successful claim for the same key. -/
theorem retry_branch_double_claim :
    claim_country 1 10 ["AD"] retryStore = (some "AD", retryStore) ∧
    claim_country 2 11 ["AD"] retryStore = (some "AD", retryStore) ∧
    (lookupKey retryStore "AD").map JobRecord.status = some "retry" := by decide

/-- C2 counterexample: a `claim_country` call by worker 7 reaching key `AD`
of `retry` status returns the key, but the stored record is not rewritten:
its status is still `retry` and its owner is still worker 3, not the record
`status = processing, worker_id = 7` the claim requires. -/
theorem retry_claim_no_rewrite_cex :
    (claim_country 7 10 ["AD"] retryStore).1 = some "AD" ∧
    lookupKey (claim_country 7 10 ["AD"] retryStore).2 "AD" = some retryRec ∧
    retryRec.status = "retry" ∧ retryRec.worker_id = some 3 ∧
    ¬(lookupKey (claim_country 7 10 ["AD"] retryStore).2 "AD" =
        some { retryRec with status := "processing", worker_id := some 7 }) := by decide

/-- C2 amended: a `claim_country` call that reaches a key whose record has
`retry` status (every earlier candidate key being present with a non-retry
status) returns that key but performs no write at all: the store is
unchanged, so the record keeps its `retry` status and its previous owner. -/
theorem retry_claim_returns_key_without_rewrite
    (workerId now : Nat) (front : List String) (code : String) (s : Store) (r : JobRecord)
    (hfront : ∀ k ∈ front, ∃ q, lookupKey s k = some q ∧ q.status ≠ "retry")
    (hcode : lookupKey s code = some r) (hretry : r.status = "retry") :
    claim_country workerId now (front ++ [code]) s = (some code, s) := by
  induction front with
  | nil =>
    show claim_country workerId now [code] s = (some code, s)
    unfold claim_country
    rw [hcode]
    simp [hretry]
  | cons k front' ih =>
    obtain ⟨q, hq, hqs⟩ := hfront k (List.mem_cons_self k front')
    show claim_country workerId now (k :: (front' ++ [code])) s = (some code, s)
    unfold claim_country
    rw [hq]
    simp only [hqs, if_false]
    exact ih fun k' hk' => hfront k' (List.mem_cons_of_mem _ hk')

/-- Witness for C2: in a store where `US` is completed and `AD` is in retry
status, worker 7's claim over the candidate list `[US, AD]` returns `AD` and
leaves the store unchanged. -/
theorem retry_claim_returns_key_without_rewrite_witness :
    claim_country 7 10 ["US", "AD"] claimStore2 = (some "AD", claimStore2) ∧
    lookupKey claimStore2 "AD" = some retryRec :=
  ⟨retry_claim_returns_key_without_rewrite 7 10 ["US"] "AD" claimStore2 retryRec
      (by
        intro k hk
        simp only [List.mem_singleton] at hk
        subst hk
        exact ⟨completedRec, by decide, by decide⟩)
      (by decide) (by decide),
   by decide⟩

/-- C3 counterexample: in the memory-optimized worker, a job that stops at
the limit is terminally marked by plain `mark_complete`: the record gets
status `completed` with a completion timestamp, carries no saved-record
count (`addresses_saved` stays `none`), and is indistinguishable from the
record a job without a limit stop receives. -/
theorem limit_stop_marked_plain_completed_cex :
    lookupKey (finish_country true "US" 9 [("US", processingRec)]) "US" =
      some { worker_id := some 1, status := "completed", started_at := some 0,
             completed_at := some 9, skipped_at := none, reason := none,
             completion_type := none, addresses_saved := none, limit_reached := none } ∧
    (lookupKey (finish_country true "US" 9 [("US", processingRec)]) "US").map
        JobRecord.addresses_saved = some none ∧
    finish_country false "US" 9 [("US", processingRec)] =
      finish_country true "US" 9 [("US", processingRec)] := by decide

/-- C3 amended: in `worker.py` the terminal marking after a run ignores the
`limit_reached` flag and always performs `mark_complete`, which rewrites the
record to plain `completed` status with a completion timestamp and leaves
`addresses_saved` untouched; only `worker_huge_countries.py`'s
`mark_complete_with_limit` records the distinguished completion
(`completion_type = limit_reached`, `limit_reached = true`) together with
the saved count. -/
theorem terminal_mark_after_limit (limitReached : Bool) (code : String)
    (now n : Nat) (s : Store) :
    finish_country limitReached code now s = mark_complete code now s ∧
    lookupKey (mark_complete code now s) code =
      (lookupKey s code).map
        (fun r => { r with status := "completed", completed_at := some now }) ∧
    lookupKey (mark_complete_with_limit code n now s) code =
      (lookupKey s code).map
        (fun r => { r with status := "completed", completed_at := some now,
                           completion_type := some "limit_reached",
                           addresses_saved := some n, limit_reached := some true }) :=
  ⟨rfl, lookupKey_updateRecord s code _, lookupKey_updateRecord s code _⟩

/-- C4 counterexample: a way carrying a building tag and a house-number tag
but no street tag is rejected by the tag-presence filter of the
memory-optimized `way` handler, although the enhanced worker's filter
passes it. -/
theorem housenumber_only_way_rejected_cex :
    way_step false false "US" "United States" 100 hnOnlyTags [] = .rejectedNoStreet ∧
    enhanced_way_tag_filter hnOnlyTags = true := by decide

/-- C4 amended: the memory-optimized `way` handler rejects any building
record lacking a street tag, house number or not (its two-sided check is
commented out and replaced with a street-only check), while the enhanced
worker's tag filter accepts a building record with a house-number tag
alone. -/
theorem way_tag_filter_requires_street (cc cn : String) (maxBbox : ℚ)
    (tags : SMap) (nodes : List OsmNode)
    (hb : hasKey tags "building" = true) (hs : hasKey tags "addr:street" = false) :
    way_step false false cc cn maxBbox tags nodes = .rejectedNoStreet ∧
    (hasKey tags "addr:housenumber" = true → enhanced_way_tag_filter tags = true) := by
  constructor
  · simp [way_step, hb, hs]
  · intro hhn
    simp [enhanced_way_tag_filter, hb, hhn]

/-- Witness for C4: the building-and-house-number tag set. -/
theorem way_tag_filter_requires_street_witness :
    way_step false false "XX" "Niceland" 100 hnOnlyTags [] = .rejectedNoStreet ∧
    enhanced_way_tag_filter hnOnlyTags = true := by
  have h := way_tag_filter_requires_street "XX" "Niceland" 100 hnOnlyTags []
    (by decide) (by decide)
  exact ⟨h.1, h.2 (by decide)⟩

/-- C5 counterexample: for two equator-straddling points 200 m apart in
latitude and 0.5 m apart in longitude, `calculate_bbox` computes 200 (the
longer bounding-box side, with the fixed 0.7 longitude factor), not the
spec's mid-latitude-adjusted area product, which is exactly 100 here
(cos of the mid latitude 0 is 1): the code rejects the way against the
100 ceiling while the claimed area formula accepts it. -/
theorem bbox_estimate_not_area_product_cex :
    calculate_bbox cexNodes = 200 ∧
    specBboxArea 1 cexNodes = 100 ∧
    ¬(calculate_bbox cexNodes ≤ 100) ∧ specBboxArea 1 cexNodes ≤ 100 := by
  have h1 : calculate_bbox cexNodes = 200 := by
    simp [calculate_bbox, collectValidCoords, listMax, listMin, cexNodes]
    norm_num [max_def, min_def]
  have h2 : specBboxArea 1 cexNodes = 100 := by
    simp [specBboxArea, collectValidCoords, listMax, listMin, cexNodes]
    norm_num [max_def, min_def, abs]
  refine ⟨h1, h2, ?_, ?_⟩
  · rw [h1]; norm_num
  · rw [h2]

/-- C5 amended: over a way with at least two nodes and at least two valid
coordinates among them, `calculate_bbox` equals the larger of the side
lengths `Δlat·111000` and `Δlon·111000·0.7` computed over the first 101
valid points (not an area product and with a fixed 0.7 factor in place of
cos of the mid latitude), and a building-with-street way is rejected at the
bbox check exactly when this estimate exceeds the 100 ceiling. -/
theorem bbox_estimate_closed_form (nodes : List OsmNode)
    (h2 : 2 ≤ nodes.length) (hv : 2 ≤ (cappedCoords nodes).length)
    (cc cn : String) (tags : SMap)
    (hb : hasKey tags "building" = true) (hs : hasKey tags "addr:street" = true) :
    calculate_bbox nodes =
      max ((listMax ((cappedCoords nodes).map Prod.fst) -
            listMin ((cappedCoords nodes).map Prod.fst)) * 111000)
          ((listMax ((cappedCoords nodes).map Prod.snd) -
            listMin ((cappedCoords nodes).map Prod.snd)) * 111000 * (7 / 10)) ∧
    (way_step false false cc cn 100 tags nodes = .rejectedBbox ↔
      100 < calculate_bbox nodes) := by
  have hcv : collectValidCoords nodes [] = cappedCoords nodes := by
    have h := collectValid_eq nodes [] (by simp)
    simpa [cappedCoords] using h
  constructor
  · simp only [calculate_bbox, hcv]
    rw [if_neg (by omega), if_neg (by omega)]
  · simp only [way_step, Bool.or_self, Bool.false_eq_true, if_false, hb, hs,
      Bool.not_true]
    by_cases hbb : (100 : ℚ) < calculate_bbox nodes
    · simp [hbb]
    · simp [hbb]

/-- Witness for C5: two valid points about one meter apart, with a
building-and-street tag set. -/
theorem bbox_estimate_closed_form_witness :
    calculate_bbox wNodes =
      max ((listMax ((cappedCoords wNodes).map Prod.fst) -
            listMin ((cappedCoords wNodes).map Prod.fst)) * 111000)
          ((listMax ((cappedCoords wNodes).map Prod.snd) -
            listMin ((cappedCoords wNodes).map Prod.snd)) * 111000 * (7 / 10)) ∧
    (way_step false false "US" "United States" 100 wTags wNodes = .rejectedBbox ↔
      100 < calculate_bbox wNodes) :=
  bbox_estimate_closed_form wNodes (by decide) (by decide) "US" "United States" wTags
    (by decide) (by decide)

/-- C6 counterexample: the Scenario A full address
`12 Main St, Springfield, United States` contains two commas, which meets
the required minimum of two, and `looks_like_address` accepts it rather
than rejecting it. -/
theorem scenario_a_passes_validity_cex :
    ("12 Main St, Springfield, United States".toList.filter (fun c => c = ',')).length = 2 ∧
    ¬(("12 Main St, Springfield, United States".toList.filter (fun c => c = ',')).length < 2) ∧
    looks_like_address "12 Main St, Springfield, United States" = true := by decide

/-- C6 amended: on the Scenario A tags the pipeline assembles
`12 Main St, Springfield, United States` (38 characters, passing the
30-character and city checks), and `looks_like_address` accepts it since
its comma count of 2 meets the required minimum, so the record is accepted
with street `Main St` and city `Springfield`. -/
theorem scenario_a_accepted :
    process_address "US" "United States" (extract_address_info scenarioATags) =
      .accepted "Main St" "Springfield" "12 Main St, Springfield, United States" ∧
    ("12 Main St, Springfield, United States").length = 38 ∧
    ("12 Main St, Springfield, United States".toList.filter (fun c => c = ',')).length = 2 ∧
    looks_like_address "12 Main St, Springfield, United States" = true := by decide

/-- C7 counterexample: on the Scenario B tags (city absent) the assembled
address `12 Main St, United States` has 25 characters, so `process_address`
rejects it at the length check, not at the city check (the claim's city
check is never reached for this record; `looks_like_address` is not invoked
either way). -/
theorem scenario_b_rejected_at_length_cex :
    process_address "US" "United States" (extract_address_info scenarioBTags) =
      .rejectedShort ∧
    process_address "US" "United States" (extract_address_info scenarioBTags) ≠
      .rejectedCity ∧
    format_full_address (extract_address_info scenarioBTags)
        (resolved_country_name "US" "United States" (extract_address_info scenarioBTags)) =
      some "12 Main St, United States" ∧
    ("12 Main St, United States").length = 25 := by decide

/-- C7 amended: for a record with a street component and no city component,
`process_address` rejects at the length check when the assembled address
has at most 30 characters and at the city check otherwise; in both cases
`looks_like_address` is never invoked (the result is never
`rejectedInvalid` or `accepted`). -/
theorem city_absent_rejection (selfCode selfName : String) (info : SMap)
    (hst : hasKey info "street" = true) (hcity : hasKey info "city" = false) :
    (process_address selfCode selfName info = .rejectedShort ∨
     process_address selfCode selfName info = .rejectedCity) ∧
    (30 < (fullOf selfCode selfName info).length →
      process_address selfCode selfName info = .rejectedCity) := by
  have hc : lookupKey info "city" = none := by
    cases hl : lookupKey info "city" with
    | none => rfl
    | some v =>
      have h' : (lookupKey info "city").isSome = false := hcity
      rw [hl] at h'
      simp at h'
  have hpc := process_address_street_cases selfCode selfName info hst
  rw [hpc, hc]
  by_cases hlen : (fullOf selfCode selfName info).length ≤ 30
  · rw [if_pos hlen]
    exact ⟨Or.inl rfl, fun h => absurd h (by omega)⟩
  · rw [if_neg hlen, if_pos (by simp)]
    exact ⟨Or.inr rfl, fun _ => rfl⟩

/-- Witness for C7: a component mapping with a 29-character street and no
city assembles a 44-character address and is rejected at the city check. -/
theorem city_absent_rejection_witness :
    process_address "US" "United States" longStreetInfo = .rejectedCity := by
  have h := city_absent_rejection "US" "United States" longStreetInfo (by decide) (by decide)
  exact h.2 (by decide)

/-- C8: a memory-triggered stop drops the buffered batch: after three
candidates are accepted into the in-memory batch (below the flush size of
50) and the memory check then fails, the stop sets `limit_reached` without
flushing, and the end-of-stream flush is skipped because it is guarded by
the negation of `limit_reached` — the three accepted records never reach
the RecordStore sink, although the same run without the memory stop flushes
all three. -/
theorem memory_stop_drops_buffered_batch :
    memoryStopRun.found = 3 ∧
    memoryStopRun.addresses_batch = [addrA, addrB, addrC] ∧
    memoryStopRun.saved_records = [] ∧
    memoryStopRun.total_saved = 0 ∧
    memoryStopRun.limit_reached = true ∧
    fullStreamRun.saved_records = [addrA, addrB, addrC] := by decide

/-- C9: the terminal marks of the memory-optimized worker are idempotent:
applying `mark_complete` (respectively `mark_skipped`) twice with the same
key, reason and timestamp leaves the job store in exactly the state one
application produces. -/
theorem terminal_marks_idempotent (code reason : String) (now : Nat) (s : Store) :
    mark_complete code now (mark_complete code now s) = mark_complete code now s ∧
    mark_skipped code reason now (mark_skipped code reason now s) =
      mark_skipped code reason now s := by
  constructor
  · unfold mark_complete
    rw [updateRecord_updateRecord]
  · unfold mark_skipped
    rw [updateRecord_updateRecord]

/-- C10 counterexample: `format_full_address` can return the empty string
(wrapped in `some`, never `None`): with no address components and an empty
resolved country name — here the unmapped code `ZZ` falling back to an
empty job country name — the part list is the single empty country name and
the join is `""`. -/
theorem format_full_address_empty_string_cex :
    get_country_name "" "ZZ" = "" ∧
    format_full_address [] (get_country_name "" "ZZ") = some "" := by decide

/-- C10 amended: `format_full_address` always appends the country name, so
it never returns `None`; its result is a nonempty string whenever the
resolved country name is nonempty, and whenever a street component is
present — hence inside `process_address`, which requires a street
component, the empty-address rejection branch is unreachable. -/
theorem format_full_address_never_none (info : SMap) (cn selfCode selfName : String) :
    format_full_address info cn ≠ none ∧
    (cn ≠ "" → format_full_address info cn ≠ some "") ∧
    (hasKey info "street" = true →
      process_address selfCode selfName info ≠ .rejectedEmpty) := by
  refine ⟨?_, ?_, ?_⟩
  · rw [format_eq_some]
    simp
  · intro h
    rw [format_eq_some]
    intro hEq
    exact full_ne_empty_of_country info cn h (Option.some.inj hEq)
  · intro hst
    rw [process_address_street_cases selfCode selfName info hst]
    split
    · simp
    split
    · simp
    split
    · simp
    · simp

/-- Witness for C10: a single-street mapping with the country name
`United States`. -/
theorem format_full_address_never_none_witness :
    format_full_address longStreetInfo "United States" ≠ none ∧
    format_full_address longStreetInfo "United States" ≠ some "" ∧
    process_address "US" "United States" longStreetInfo ≠ .rejectedEmpty := by
  have h := format_full_address_never_none longStreetInfo "United States" "US" "United States"
  exact ⟨h.1, h.2.1 (by decide), h.2.2 (by decide)⟩

end AddrGen
